import Mathlib

/-!
Verification of the counter lesson: the reducer in
`src/src/reducers/counterReducer.js`, the `mapStateToProps` selector shown in
the lesson text, and the abstract Store machine (`createStore` / `getState` /
`dispatch` / `subscribe`) that the lesson's spec describes.

JavaScript objects are open records, so the application state is modelled as a
record with the declared `clicks` field (a JS number, modelled as `Int`) plus
an association list of any additional fields.  An action's discriminant
`action.type` may be absent (reading a missing field yields `undefined`), so
it is modelled as `Option String`.
-/

namespace Counter

/-- Application state: the `clicks` field together with any extra fields the
object may carry (JS objects are open records). -/
structure State where
  clicks : Int
  extra : List (String × Int)
deriving Repr, DecidableEq

/-- An action: the discriminant field `type`, which may be missing
(`undefined` in JS).  Payload fields are irrelevant to this reducer. -/
structure Action where
  type : Option String
deriving Repr, DecidableEq

/-- Embedding of `counterReducer` from `src/src/reducers/counterReducer.js`.
The JS default parameter `state = { clicks: 0 }` fires when the first
argument is `undefined`, modelled by `Option.getD`.  The switch has a single
case, `INCREASE_COUNT`, which returns the fresh object
`{ clicks: state.clicks + 1 }` (no other fields), and a default arm returning
`state` itself.  The `console.log` calls are pure output and do not affect
the returned value; they are accounted for separately in `counterReducerT`. -/
def counterReducer (stateOpt : Option State) (action : Action) : State :=
  let state := stateOpt.getD { clicks := 0, extra := [] }
  if action.type = some "INCREASE_COUNT" then
    { clicks := state.clicks + 1, extra := [] }
  else
    state

/-- One `console.log` call made by the reducer, with the arguments it was
given: the body logs the action first, then either the current and updated
click counts (`INCREASE_COUNT` case) or the current count (default case). -/
inductive LogEvent where
  | logAction (a : Action)
  | logCurrentClicks (n : Int)
  | logUpdatingClicks (n : Int)
  | logInitialClicks (n : Int)
deriving Repr, DecidableEq

/-- Embedding of `counterReducer` together with its console output: the same
function as `counterReducer`, paired with the ordered list of `console.log`
calls the body performs on that invocation. -/
def counterReducerT (stateOpt : Option State) (action : Action) :
    State × List LogEvent :=
  let state := stateOpt.getD { clicks := 0, extra := [] }
  if action.type = some "INCREASE_COUNT" then
    ({ clicks := state.clicks + 1, extra := [] },
     [LogEvent.logAction action,
      LogEvent.logCurrentClicks state.clicks,
      LogEvent.logUpdatingClicks (state.clicks + 1)])
  else
    (state,
     [LogEvent.logAction action,
      LogEvent.logInitialClicks state.clicks])

/-- Embedding of `mapStateToProps` from the lesson's `src/App.js`:
`(state) => ({ clicks: state.clicks })`, a fresh object carrying only the
`clicks` field. -/
def mapStateToProps (state : State) : State :=
  { clicks := state.clicks, extra := [] }

/-- The action dispatched by the App component's click handler. -/
def increaseCount : Action := { type := some "INCREASE_COUNT" }

/-- Behaviour of a listener callback when notified: it may do nothing, may
subscribe a further listener (with its own behaviour), or may unsubscribe a
registered listener by handle. -/
inductive LEffect where
  | pass
  | subscribeNew (e : LEffect)
  | unsub (id : Nat)
deriving Repr, DecidableEq

/-- Modelled from the spec: the Store of section 4.2 (the `createStore`
result is library code, absent from `src/`).  It owns the current state and
an ordered registry of listeners, each a handle paired with its behaviour;
`log` records, in order, the handle of every listener notification ever
made. -/
structure Store where
  state : State
  listeners : List (Nat × LEffect)
  nextId : Nat
  log : List Nat
deriving Repr, DecidableEq

/-- Modelled from the spec: `getState()` returns the current state. -/
def getState (st : Store) : State :=
  st.state

/-- Modelled from the spec: `subscribe(listener)` appends the callback to the
registry and returns its fresh handle (the unsubscribe capability refers to
this handle). -/
def subscribe (st : Store) (e : LEffect) : Nat × Store :=
  (st.nextId,
   { st with
       listeners := st.listeners ++ [(st.nextId, e)],
       nextId := st.nextId + 1 })

/-- Modelled from the spec: the unsubscribe capability removes exactly the
handle it was created for; removing an absent handle is a no-op. -/
def unsubscribe (st : Store) (id : Nat) : Store :=
  { st with listeners := st.listeners.filter (fun p => p.1 != id) }

/-- Runs the effect a listener performs when called. -/
def applyEffect (st : Store) (e : LEffect) : Store :=
  match e with
  | LEffect.pass => st
  | LEffect.subscribeNew e1 => (subscribe st e1).2
  | LEffect.unsub id => unsubscribe st id

/-- Notifies one listener: records the call in the log, then runs whatever
the callback does to the store. -/
def notifyOne (st : Store) (l : Nat × LEffect) : Store :=
  applyEffect { st with log := st.log ++ [l.1] } l.2

/-- Modelled from the spec: notify every listener of a snapshot, in order. -/
def notifyAll (st : Store) (snapshot : List (Nat × LEffect)) : Store :=
  snapshot.foldl notifyOne st

/-- Modelled from the spec: `dispatch(action)` computes the next state with
the reducer, replaces the current state, then notifies the listeners that
were registered at the moment the dispatch began (snapshot-before-iterating
semantics of section 4.2). -/
def dispatch (st : Store) (a : Action) : Store :=
  let snapshot := st.listeners
  let next := counterReducer (some st.state) a
  notifyAll { st with state := next } snapshot

/-- Dispatches a finite sequence of actions left to right. -/
def dispatchAll (st : Store) (acts : List Action) : Store :=
  acts.foldl dispatch st

/-- Modelled from the spec: the init-sentinel action `createStore` dispatches
once at construction so the reducer's own default state applies. -/
def initAction : Action := { type := some "@@redux/INIT" }

/-- Modelled from the spec: `createStore(counterReducer, initialState?)`
establishes the first state by invoking the reducer on the (possibly absent)
initial state and the init sentinel. -/
def createStore (initOpt : Option State) : Store :=
  { state := counterReducer initOpt initAction,
    listeners := [],
    nextId := 0,
    log := [] }

/-- Modelled from the spec: dispatch for an arbitrary, possibly failing
reducer (section 4.2's failure semantics).  A reducer that throws is
modelled as returning `Except.error`; the store is then left untouched, no
listener is notified, and the error is handed to the caller. -/
def dispatchE (r : State → Action → Except String State) (st : Store)
    (a : Action) : Store × Option String :=
  match r st.state a with
  | Except.error e => (st, some e)
  | Except.ok next => (notifyAll { st with state := next } st.listeners, none)

/-- A reducer that always throws, used to exercise the failure path. -/
def throwingReducer : State → Action → Except String State :=
  fun _ _ => Except.error "boom"

/-! Helper lemmas about listener notification: a callback's effect can touch
the registry but never the state or the notification log, and notifying a
snapshot appends exactly the snapshot's handles to the log. -/

theorem applyEffect_state (st : Store) (e : LEffect) :
    (applyEffect st e).state = st.state := by
  cases e <;> rfl

theorem applyEffect_log (st : Store) (e : LEffect) :
    (applyEffect st e).log = st.log := by
  cases e <;> rfl

theorem notifyOne_state (st : Store) (l : Nat × LEffect) :
    (notifyOne st l).state = st.state := by
  simpa [notifyOne] using applyEffect_state { st with log := st.log ++ [l.1] } l.2

theorem notifyOne_log (st : Store) (l : Nat × LEffect) :
    (notifyOne st l).log = st.log ++ [l.1] := by
  simpa [notifyOne] using applyEffect_log { st with log := st.log ++ [l.1] } l.2

theorem notifyAll_state (snapshot : List (Nat × LEffect)) :
    ∀ st : Store, (notifyAll st snapshot).state = st.state := by
  induction snapshot with
  | nil => intro st; rfl
  | cons l ls ih =>
      intro st
      calc (notifyAll st (l :: ls)).state
          = (notifyAll (notifyOne st l) ls).state := rfl
        _ = (notifyOne st l).state := ih (notifyOne st l)
        _ = st.state := notifyOne_state st l

theorem notifyAll_log (snapshot : List (Nat × LEffect)) :
    ∀ st : Store, (notifyAll st snapshot).log = st.log ++ snapshot.map Prod.fst := by
  induction snapshot with
  | nil => intro st; simp [notifyAll]
  | cons l ls ih =>
      intro st
      calc (notifyAll st (l :: ls)).log
          = (notifyAll (notifyOne st l) ls).log := rfl
        _ = (notifyOne st l).log ++ ls.map Prod.fst := ih (notifyOne st l)
        _ = (st.log ++ [l.1]) ++ ls.map Prod.fst := by rw [notifyOne_log]
        _ = st.log ++ (l :: ls).map Prod.fst := by simp

theorem dispatch_state (st : Store) (a : Action) :
    getState (dispatch st a) = counterReducer (some (getState st)) a := by
  simpa [dispatch, getState] using
    notifyAll_state st.listeners { st with state := counterReducer (some st.state) a }

theorem dispatch_log (st : Store) (a : Action) :
    (dispatch st a).log = st.log ++ st.listeners.map Prod.fst := by
  simpa [dispatch] using
    notifyAll_log st.listeners { st with state := counterReducer (some st.state) a }

theorem replay_aux (acts : List Action) :
    ∀ st : Store, getState (dispatchAll st acts) =
      acts.foldl (fun s a => counterReducer (some s) a) (getState st) := by
  induction acts with
  | nil => intro st; rfl
  | cons a as ih =>
      intro st
      calc getState (dispatchAll st (a :: as))
          = getState (dispatchAll (dispatch st a) as) := rfl
        _ = as.foldl (fun s b => counterReducer (some s) b) (getState (dispatch st a)) :=
            ih (dispatch st a)
        _ = as.foldl (fun s b => counterReducer (some s) b)
              (counterReducer (some (getState st)) a) := by rw [dispatch_state]

/-- Claim C1: for every initial state and every finite sequence of actions
dispatched to a store created from `counterReducer`, `getState()` after the
sequence equals `counterReducer` folded left-to-right over the store's
initial state and the action sequence. -/
theorem createStore_replay_fold (initOpt : Option State) (acts : List Action) :
    getState (dispatchAll (createStore initOpt) acts) =
      acts.foldl (fun s a => counterReducer (some s) a)
        (getState (createStore initOpt)) :=
  replay_aux acts (createStore initOpt)

/-- Claim C2: for every state and every action whose discriminant is not the
recognized `INCREASE_COUNT` case (an unrecognized type string, or a missing
`type` field, modelled as `Option.none`), `counterReducer` returns the prior
state unchanged; being a total function, it never throws and never
substitutes an error state. -/
theorem counterReducer_unrecognized_passthrough (s : State) (a : Action)
    (h : a.type ≠ some "INCREASE_COUNT") :
    counterReducer (some s) a = s := by
  simp [counterReducer, h]

/-- Witness for claim C2 at two concrete inputs: an unknown type string and a
missing `type` field, on a state carrying an extra field. -/
theorem counterReducer_unrecognized_passthrough_wit :
    counterReducer (some { clicks := 5, extra := [("flag", 1)] })
        { type := some "UNKNOWN" } =
      { clicks := 5, extra := [("flag", 1)] } ∧
    counterReducer (some { clicks := 5, extra := [("flag", 1)] })
        { type := none } =
      { clicks := 5, extra := [("flag", 1)] } :=
  ⟨counterReducer_unrecognized_passthrough _ _ (by simp),
   counterReducer_unrecognized_passthrough _ _ (by simp)⟩

/-- Claim C3: the counter is monotonically non-decreasing; for every state
and every action the reducer's result has at least as many clicks. -/
theorem counterReducer_clicks_monotone (s : State) (a : Action) :
    s.clicks ≤ (counterReducer (some s) a).clicks := by
  by_cases h : a.type = some "INCREASE_COUNT" <;> simp [counterReducer, h]

/-- Claim C4: invoked with an undefined state (the very first invocation) the
reducer substitutes the default `{ clicks: 0 }`; for every action it behaves
as if called on that default state. -/
theorem counterReducer_default_parameter (a : Action) :
    counterReducer none a = counterReducer (some { clicks := 0, extra := [] }) a :=
  rfl

/-- Claim C5 evidence: `counterReducerT`, the reducer embedded together with
its console output, computes the same state as `counterReducer` but performs
`console.log` calls — output I/O — on every invocation, so the reducer body
is not free of I/O. -/
theorem counterReducerT_always_logs (stateOpt : Option State) (a : Action) :
    (counterReducerT stateOpt a).1 = counterReducer stateOpt a ∧
      (counterReducerT stateOpt a).2 ≠ [] := by
  by_cases h : a.type = some "INCREASE_COUNT" <;>
    simp [counterReducerT, counterReducer, h]

/-- The store of the lesson's concrete scenario: initial state
`{ clicks: 0 }` with one listener subscribed before any dispatch. -/
def clickScenario : Store :=
  (subscribe (createStore (some { clicks := 0, extra := [] })) LEffect.pass).2

/-- Claim C6: from initial state `{ clicks: 0 }`, dispatching
`INCREASE_COUNT` three times yields `getState() = { clicks: 3 }`, and the
listener subscribed before the dispatches (handle 0) is notified exactly 3
times. -/
theorem three_clicks_three_notifications :
    getState (dispatchAll clickScenario [increaseCount, increaseCount, increaseCount]) =
      { clicks := 3, extra := [] } ∧
    (dispatchAll clickScenario [increaseCount, increaseCount, increaseCount]).log.count 0 = 3 :=
  ⟨rfl, rfl⟩

/-- Claim C7: the listeners notified during a dispatch are exactly those
registered when the dispatch began — callbacks that subscribe or unsubscribe
during the dispatch do not change that dispatch's notification set — and the
registry changes take effect from the next dispatch, whose notification set
is the post-dispatch registry. -/
theorem dispatch_snapshot_notification (st : Store) (a b : Action) :
    (dispatch st a).log = st.log ++ st.listeners.map Prod.fst ∧
    (dispatch (dispatch st a) b).log =
      (dispatch st a).log ++ (dispatch st a).listeners.map Prod.fst :=
  ⟨dispatch_log st a, dispatch_log (dispatch st a) b⟩

/-- Claim C8: if the reducer fails during dispatch, the error propagates to
the caller, `getState()` still returns the pre-dispatch state, and no
listener is notified for the failed dispatch (the log is unchanged). -/
theorem dispatchE_error_is_atomic (r : State → Action → Except String State)
    (st : Store) (a : Action) (e : String)
    (h : r st.state a = Except.error e) :
    (dispatchE r st a).2 = some e ∧
    getState (dispatchE r st a).1 = getState st ∧
    (dispatchE r st a).1.log = st.log := by
  simp [dispatchE, h, getState]

/-- Witness for claim C8: the always-failing reducer on a freshly created
store leaves the store untouched and reports the error. -/
theorem dispatchE_error_is_atomic_wit :
    (dispatchE throwingReducer (createStore none) increaseCount).2 = some "boom" ∧
    getState (dispatchE throwingReducer (createStore none) increaseCount).1 =
      getState (createStore none) ∧
    (dispatchE throwingReducer (createStore none) increaseCount).1.log =
      (createStore none).log :=
  dispatchE_error_is_atomic throwingReducer (createStore none) increaseCount "boom" rfl

/-- Claim C9: on `INCREASE_COUNT` the reducer returns exactly the fresh
record `{ clicks: s.clicks + 1 }`; every other field of the prior state is
absent from the result. -/
theorem counterReducer_increase_exact (s : State) :
    counterReducer (some s) increaseCount = { clicks := s.clicks + 1, extra := [] } := by
  simp [counterReducer, increaseCount]

/-- Claim C10: `mapStateToProps` is a pure projection returning exactly
`{ clicks: s.clicks }` (no other fields), so the connected component's
`clicks` prop always equals the store state's `clicks` field. -/
theorem mapStateToProps_pure_projection (s : State) :
    mapStateToProps s = { clicks := s.clicks, extra := [] } ∧
    ∀ st : Store, (mapStateToProps (getState st)).clicks = (getState st).clicks :=
  ⟨rfl, fun _ => rfl⟩

end Counter
